import Mathlib

/-!
Verification development for the SentryOS demo repository.

The repository's server endpoints relay a third-party streaming agent
response over server-sent events (SSE) and expose two non-streaming
"agent" endpoints.  This file gives a shallow embedding of those
endpoints — the data model, the validation logic, the relay loops and
the JSON extraction/fallback logic — translated from the TypeScript
sources, and proves the specification's claims about them.

Conventions of the embedding:
* the upstream agent SDK's asynchronous event sequence is modelled as a
  list of `SDKMessage` values, with a separate constructor of `Upstream`
  for a sequence that raises an exception after yielding a prefix;
* each SSE frame written by a relay is a `Frame`; the literal
  `data: [DONE]` sentinel is the `Frame.doneSentinel` constructor;
* the output channel (`ReadableStream` controller) is modelled by an
  optional capacity: `none` means the client stays connected, `some n`
  means the channel accepts `n` frames and every later `enqueue` throws
  (the client has disconnected);
* fallible JavaScript code is modelled with `Option`/explicit booleans.
-/

namespace SentryOS

/-- Conversation roles accepted by the endpoints (`role ∈ {user, assistant}`). -/
inductive Role where
  | user
  | assistant
deriving DecidableEq, Repr

/-- One conversation turn, the `MessageInput` interface of the routes. -/
structure MessageInput where
  role : Role
  content : String
deriving DecidableEq, Repr

/-- Content block of an upstream assistant message.  The relay only
distinguishes `tool_use` blocks (by name) from everything else. -/
inductive Block where
  | toolUse (name : String)
  | otherBlock
deriving DecidableEq, Repr

/-- Upstream agent SDK message, as discriminated by the relay loops:
`stream_event` carrying a `content_block_delta`/`text_delta`, any other
`stream_event`, an `assistant` message with content blocks, a
`tool_progress` message, a `result` with subtype `success`, a `result`
with any other subtype, and any other message type. -/
inductive SDKMessage where
  | textDelta (text : String)
  | otherStream
  | assistantMsg (content : List Block)
  | toolProgress (tool : String) (elapsed : Nat)
  | resultSuccess
  | resultError
  | otherMsg
deriving DecidableEq, Repr

/-- An upstream event sequence: either it completes after yielding
`msgs`, or it raises an exception after yielding the prefix `pre`. -/
inductive Upstream where
  | ok (msgs : List SDKMessage)
  | throws (pre : List SDKMessage)
deriving DecidableEq, Repr

/-- SSE frames written by the relays: the five JSON-tagged frames plus
the literal `[DONE]` sentinel. -/
inductive Frame where
  | textDelta (text : String)
  | toolStart (tool : String)
  | toolProgress (tool : String) (elapsed : Nat)
  | done
  | error (message : String)
  | doneSentinel
deriving DecidableEq, Repr

/-- Frames enqueued by one iteration of the relay loop of
`src/app/api/chat/route.ts` (lines 109–175) for one upstream message. -/
def relayFrames : SDKMessage → List Frame
  | .textDelta t => [.textDelta t]
  | .otherStream => []
  | .assistantMsg content =>
      content.filterMap fun b =>
        match b with
        | .toolUse n => some (Frame.toolStart n)
        | .otherBlock => none
  | .toolProgress t e => [.toolProgress t e]
  | .resultSuccess => [.done]
  | .resultError => [.error "Query did not complete successfully"]
  | .otherMsg => []

/-- The `for await` relay loop, with the frames written so far as the
accumulator (frames are appended in the order they are enqueued). -/
def relayLoop : List SDKMessage → List Frame → List Frame
  | [], acc => acc
  | m :: rest, acc => relayLoop rest (acc ++ relayFrames m)

/-- The output channel.  `enqueueW cap written f` models
`controller.enqueue` on a channel that has already accepted `written`:
`none` is a successful write, returning the new written list; `some`
capacity exhausted means the write throws (`none` result). -/
def enqueueW : Option Nat → List Frame → Frame → Option (List Frame)
  | none, w, f => some (w ++ [f])
  | some n, w, f => if w.length < n then some (w ++ [f]) else none

/-- Write a list of frames one `enqueue` at a time; stops at the first
throwing write.  Returns the frames actually written and whether a
write threw. -/
def writeAll (cap : Option Nat) : List Frame → List Frame → List Frame × Bool
  | w, [] => (w, false)
  | w, f :: fs =>
      match enqueueW cap w f with
      | some w2 => writeAll cap w2 fs
      | none => (w, true)

/-- `controller.close()`: throws iff the stream is no longer readable,
i.e. the client has already canceled it.  In the capacity model a
channel of capacity `n` is canceled once it has accepted `n` frames,
so a `close` issued at or beyond capacity throws. -/
def closeThrows : Option Nat → List Frame → Bool
  | none, _ => false
  | some n, w => if w.length < n then false else true

/-- The `catch` block of `route.ts` (lines 180–190): enqueue an error
frame, **unguarded** — if that write throws the exception escapes the
stream start handler (second component `true`); if it succeeds, the
following `controller.close()` (line 189) is also unguarded and its
exception likewise escapes. -/
def chatCatch (cap : Option Nat) (w : List Frame) : List Frame × Bool :=
  match enqueueW cap w (.error "Stream error occurred") with
  | some w2 => (w2, closeThrows cap w2)
  | none => (w, true)

/-- The whole `start(controller)` body of `route.ts`: run the relay
loop over the upstream sequence, append the `[DONE]` sentinel and
`controller.close()` (line 179) on success; any exception (from the
upstream iterator, from a write, or from that `close`) lands in
`chatCatch`.  Returns the frames written and whether an exception
escaped the handler. -/
def chatRun (cap : Option Nat) : Upstream → List Frame × Bool
  | .ok msgs =>
      let r := writeAll cap [] (relayLoop msgs [] ++ [.doneSentinel])
      if r.2 then chatCatch cap r.1
      else if closeThrows cap r.1 then chatCatch cap r.1
      else (r.1, false)
  | .throws pre =>
      let r := writeAll cap [] (relayLoop pre [])
      chatCatch cap r.1

/-- The frame sequence of a chat stream when the client stays
connected (capacity `none`). -/
def chatStream (up : Upstream) : List Frame :=
  (chatRun none up).1

/-- Request body as seen after `request.json()`: the call throws
(`malformed`), the `messages` field is missing or not an array
(`noArray`), or it is an array of turns. -/
inductive ChatBody where
  | malformed
  | noArray
  | messages (msgs : List MessageInput)
deriving DecidableEq, Repr

/-- `m.role === 'user'`. -/
def isUserMsg (m : MessageInput) : Bool :=
  match m.role with
  | .user => true
  | .assistant => false

/-- `messages.filter(m => m.role === 'user').pop()` — the last turn
with role `user`, anywhere in the list. -/
def lastUserMessage (msgs : List MessageInput) : Option MessageInput :=
  (msgs.filter isUserMsg).getLast?

/-- Responses of the streaming endpoints. -/
inductive ChatResponse where
  | badRequest (error : String)
  | streamResponse (frames : List Frame)
  | serverError (error : String)
deriving DecidableEq, Repr

/-- HTTP status attached to each response shape. -/
def statusOf : ChatResponse → Nat
  | .badRequest _ => 400
  | .streamResponse _ => 200
  | .serverError _ => 500

/-- Result of a POST: its response plus how many upstream agent calls
were opened while producing it. -/
structure ChatResult where
  response : ChatResponse
  upstreamCalls : Nat
deriving DecidableEq, Repr

/-- `POST` of `src/app/api/chat/route.ts`: body parse failure lands in
the outer catch (HTTP 500); a missing or non-array `messages` field and
the absence of any user turn are rejected with HTTP 400 before the
upstream call; otherwise the streaming response is produced (one
upstream call). -/
def chatPOST (body : ChatBody) (up : Upstream) : ChatResult :=
  match body with
  | .malformed =>
      ⟨.serverError "Failed to process chat request. Check server logs for details.", 0⟩
  | .noArray => ⟨.badRequest "Messages array is required", 0⟩
  | .messages msgs =>
      match lastUserMessage msgs with
      | none => ⟨.badRequest "No user message found", 0⟩
      | some _ => ⟨.streamResponse (chatStream up), 1⟩

/-! ### Gong-agent streaming endpoint (the second route of `part_001`) -/

/-- A Gong call record; only the fields the response generation reads. -/
structure GongCall where
  title : Option String
  duration : Option Nat
deriving DecidableEq, Repr

/-- Payload of a successful Gong API fetch (`GongCallsResponse`). -/
structure GongCallsResponse where
  calls : Option (List GongCall)
deriving DecidableEq, Repr

/-- `call.title || 'Untitled Call'` (the empty string is falsy in JS). -/
def callTitle (c : GongCall) : String :=
  match c.title with
  | some t => if t = "" then "Untitled Call" else t
  | none => "Untitled Call"

/-- `call.duration || 'Unknown'` (the number 0 is falsy in JS). -/
def callDuration (c : GongCall) : String :=
  match c.duration with
  | some d => if d = 0 then "Unknown" else toString d
  | none => "Unknown"

/-- JavaScript `s.includes(pat)` for a non-empty pattern. -/
def strContains (s pat : String) : Bool :=
  (s.splitOn pat).length > 1

/-- The `gongData.calls.slice(0, 3).forEach(...)` summary lines. -/
def gongSummaryLines (calls : List GongCall) : String :=
  String.join (((calls.take 3).enum).map fun p =>
    toString (p.1 + 1) ++ ". " ++ callTitle p.2 ++ " - Duration: " ++
      callDuration p.2 ++ " minutes\n")

/-- The fixed fallback sentence the Gong route uses when no Gong data
is available. -/
def gongNoDataContent : String :=
  "I\x27m ready to help you with Gong call analysis. However, I couldn\x27t fetch " ++
    "your recent call data at the moment. You can ask me about call summaries, " ++
    "participant insights, or any other questions about your sales calls."

/-- Response content generation of the Gong route (lines 1069–1085):
`fetched = none` models a fetch that threw or returned non-OK (caught,
`hasGongData = false`); the content depends on whether calls were
found and whether the latest user message mentions `summary`. -/
def gongContent (fetched : Option GongCallsResponse) (userMsg : String) : String :=
  match fetched with
  | some gongData =>
      match gongData.calls with
      | some calls =>
          if calls.length > 0 then
            "Based on your recent Gong calls, I found " ++ toString calls.length ++
              " calls from the past week. " ++
              (if strContains userMsg.toLower "summary" then
                "Here\x27s a summary of your recent activity:\n\n" ++ gongSummaryLines calls
              else "How can I help you analyze this data?")
          else gongNoDataContent
      | none => gongNoDataContent
  | none => gongNoDataContent

/-- The `catch` block of the Gong route (lines 1111–1129): only the
error frame enqueue is wrapped in its own `try`/`catch` (a throwing
write is swallowed), but the following `controller.close()` at line
1128 is **unguarded** — on an already-canceled stream it throws and
the exception escapes the handler (second component `true`). -/
def gongCatch (cap : Option Nat) (w : List Frame) : List Frame × Bool :=
  match enqueueW cap w (.error "Stream error occurred") with
  | some w2 => (w2, closeThrows cap w2)
  | none => (w, closeThrows cap w)

/-- The `start(controller)` body of the Gong route: the fetch is
guarded (its failure only clears `hasGongData`), the content is
generated, and exactly three frames are written — one `text_delta`,
one `done`, the `[DONE]` sentinel — followed by `controller.close()`
(line 1110); any exception from a write or from that `close` lands in
`gongCatch`. -/
def gongRun (cap : Option Nat) (fetched : Option GongCallsResponse)
    (userMsg : String) : List Frame × Bool :=
  let content := gongContent fetched userMsg
  let r := writeAll cap [] [.textDelta content, .done, .doneSentinel]
  if r.2 then gongCatch cap r.1
  else if closeThrows cap r.1 then gongCatch cap r.1
  else (r.1, false)

/-- `POST` of the Gong route (lines 986–1155): same validation as the
chat route, outer catch gives HTTP 500. -/
def gongPOST (body : ChatBody) (fetched : Option GongCallsResponse) : ChatResponse :=
  match body with
  | .malformed => .serverError "Failed to process Gong agent request"
  | .noArray => .badRequest "Messages array is required"
  | .messages msgs =>
      match lastUserMessage msgs with
      | none => .badRequest "No user message found"
      | some lastU => .streamResponse (gongRun none fetched lastU.content).1

/-! ### Non-streaming email-agent chat endpoint (`part_004`) -/

/-- `block.type === 'tool_use'`. -/
def isToolUse (b : Block) : Bool :=
  match b with
  | .toolUse _ => true
  | .otherBlock => false

/-- The accumulation loop of the email-agent chat route (lines
90–135): `fullResponse` collects `text_delta` texts, `toolsUsed`
counts `tool_use` blocks of assistant messages. -/
def emailLoop : List SDKMessage → String → Nat → String × Nat
  | [], fullResponse, toolsUsed => (fullResponse, toolsUsed)
  | m :: rest, fullResponse, toolsUsed =>
      match m with
      | .textDelta t => emailLoop rest (fullResponse ++ t) toolsUsed
      | .assistantMsg content =>
          emailLoop rest fullResponse (toolsUsed + (content.filter isToolUse).length)
      | _ => emailLoop rest fullResponse toolsUsed

/-- Success body of the email-agent chat route (lines 166–170). -/
structure EmailChatOk where
  message : String
  toolsUsed : Nat
  timestamp : String
deriving DecidableEq, Repr

/-- Responses of the email-agent chat route. -/
inductive EmailChatResponse where
  | ok (body : EmailChatOk)
  | badRequest (error : String)
  | failure (error : String) (message : String)
deriving DecidableEq, Repr

/-- HTTP status of each email-chat response shape. -/
def emailStatusOf : EmailChatResponse → Nat
  | .ok _ => 200
  | .badRequest _ => 400
  | .failure _ _ => 500

/-- `POST` of the email-agent chat route (`part_004` lines 23–204):
validation as in the chat route; on upstream success the accumulated
text, tool count and a timestamp are returned as JSON; any exception
lands in the catch (HTTP 500).  `ts` is the `new Date().toISOString()`
value. -/
def emailChatPOST (body : ChatBody) (up : Upstream) (ts : String) : EmailChatResponse :=
  match body with
  | .malformed =>
      .failure "Failed to process chat message"
        "Sorry, I encountered an error. Please try again."
  | .noArray => .badRequest "Messages array is required"
  | .messages msgs =>
      match lastUserMessage msgs with
      | none => .badRequest "No user message found"
      | some _ =>
          match up with
          | .ok ms =>
              let r := emailLoop ms "" 0
              .ok ⟨r.1, r.2, ts⟩
          | .throws _ =>
              .failure "Failed to process chat message"
                "Sorry, I encountered an error. Please try again."

/-! ### JSON values and `JSON.parse`

`JSON.parse` is a platform builtin, not repository code; it is modelled
here by an executable recursive-descent parser over untyped JSON
values.  Simplifications (noted, none load-bearing for the claims):
numbers are integers without fraction/exponent, string escapes cover
the single-character escapes but not `\u`; raw control characters in
strings are rejected, as in JSON. -/

/-- Untyped JSON values, the result type of `JSON.parse`. -/
inductive JsonVal where
  | null
  | bool (b : Bool)
  | num (n : Int)
  | str (s : String)
  | arr (xs : List JsonVal)
  | obj (fields : List (String × JsonVal))

/-- The `{` character, by code point. -/
def lbrace : Char := Char.ofNat 123

/-- The `}` character, by code point. -/
def rbrace : Char := Char.ofNat 125

/-- Skip JSON whitespace. -/
def skipWs : List Char → List Char
  | [] => []
  | c :: cs =>
      if c = ' ' ∨ c = '\n' ∨ c = '\t' ∨ c = '\r' then skipWs cs else c :: cs

/-- Parse the body of a JSON string literal (after the opening quote),
up to and including the closing quote.  Raw control characters are
invalid; escapes cover the single-character escapes of JSON. -/
def parseStrBody : List Char → Option (List Char × List Char)
  | [] => none
  | c :: cs =>
      if c = '"' then some ([], cs)
      else if c = '\\' then
        match cs with
        | [] => none
        | e :: cs2 =>
            let dec : Option Char :=
              if e = '"' then some '"'
              else if e = '\\' then some '\\'
              else if e = '/' then some '/'
              else if e = 'n' then some '\n'
              else if e = 't' then some '\t'
              else if e = 'r' then some '\r'
              else if e = 'b' then some (Char.ofNat 8)
              else if e = 'f' then some (Char.ofNat 12)
              else none
            match dec with
            | none => none
            | some d =>
                match parseStrBody cs2 with
                | some (body, rest) => some (d :: body, rest)
                | none => none
      else if c.toNat < 32 then none
      else
        match parseStrBody cs with
        | some (body, rest) => some (c :: body, rest)
        | none => none

/-- Parse a run of decimal digits into a natural number. -/
def parseDigits : List Char → Nat → Option (Nat × List Char)
  | [], acc => some (acc, [])
  | c :: cs, acc =>
      if c.isDigit then parseDigits cs (acc * 10 + (c.toNat - 48))
      else some (acc, c :: cs)

mutual

/-- Parse one JSON value (fuel-indexed recursion; the fuel bounds the
nesting depth and is always sufficient when it exceeds the input
length). -/
def parseVal : Nat → List Char → Option (JsonVal × List Char)
  | 0, _ => none
  | fuel + 1, input =>
      match skipWs input with
      | [] => none
      | c :: cs =>
          if c = 'n' then
            match cs with
            | 'u' :: 'l' :: 'l' :: rest => some (.null, rest)
            | _ => none
          else if c = 't' then
            match cs with
            | 'r' :: 'u' :: 'e' :: rest => some (.bool true, rest)
            | _ => none
          else if c = 'f' then
            match cs with
            | 'a' :: 'l' :: 's' :: 'e' :: rest => some (.bool false, rest)
            | _ => none
          else if c = '"' then
            match parseStrBody cs with
            | some (body, rest) => some (.str (String.mk body), rest)
            | none => none
          else if c = '-' then
            match cs with
            | d :: _ =>
                if d.isDigit then
                  match parseDigits cs 0 with
                  | some (n, rest) => some (.num (-(n : Int)), rest)
                  | none => none
                else none
            | [] => none
          else if c.isDigit then
            match parseDigits (c :: cs) 0 with
            | some (n, rest) => some (.num (n : Int), rest)
            | none => none
          else if c = '[' then
            match skipWs cs with
            | ']' :: rest => some (.arr [], rest)
            | cs2 => parseArrItems fuel cs2 []
          else if c = lbrace then
            match skipWs cs with
            | r :: rest => if r = rbrace then some (.obj [], rest) else parseObjItems fuel (r :: rest) []
            | [] => none
          else none

/-- Parse the comma-separated items of a JSON array, after `[`. -/
def parseArrItems : Nat → List Char → List JsonVal → Option (JsonVal × List Char)
  | 0, _, _ => none
  | fuel + 1, input, acc =>
      match parseVal fuel input with
      | none => none
      | some (v, rest) =>
          match skipWs rest with
          | ',' :: rest2 => parseArrItems fuel rest2 (acc ++ [v])
          | ']' :: rest2 => some (.arr (acc ++ [v]), rest2)
          | _ => none

/-- Parse the comma-separated members of a JSON object, after `{`. -/
def parseObjItems : Nat → List Char → List (String × JsonVal) →
    Option (JsonVal × List Char)
  | 0, _, _ => none
  | fuel + 1, input, acc =>
      match skipWs input with
      | '"' :: cs =>
          match parseStrBody cs with
          | none => none
          | some (key, rest) =>
              match skipWs rest with
              | ':' :: rest2 =>
                  match parseVal fuel rest2 with
                  | none => none
                  | some (v, rest3) =>
                      match skipWs rest3 with
                      | ',' :: rest4 => parseObjItems fuel rest4 (acc ++ [(String.mk key, v)])
                      | r :: rest4 =>
                          if r = rbrace then some (.obj (acc ++ [(String.mk key, v)]), rest4)
                          else none
                      | [] => none
              | _ => none
      | _ => none

end

/-- `JSON.parse`: parse one value, require only whitespace after it. -/
def jsonParse (s : String) : Option JsonVal :=
  match parseVal (s.toList.length + 1) s.toList with
  | some (v, rest) => if skipWs rest = [] then some v else none
  | none => none

/-! ### Fenced-block extraction of the analysis endpoints

`fullResponse.match(/```json\n([\s\S]*?)\n```/)` finds the leftmost
position where the opening token matches and a closing token occurs
later, and captures the (non-greedy, hence shortest) text in between.
-/

/-- Split a character list at the first occurrence of `pat`: returns
the text before the occurrence and the text after it. -/
def splitAtSub (pat : List Char) : List Char → Option (List Char × List Char)
  | [] => if pat = [] then some ([], []) else none
  | c :: cs =>
      if pat.isPrefixOf (c :: cs) then some ([], (c :: cs).drop pat.length)
      else
        match splitAtSub pat cs with
        | some (pre, post) => some (c :: pre, post)
        | none => none

/-- Leftmost-first regex match of `openT` `([\s\S]*?)` `closeT`:
at the first position where `openT` matches and `closeT` occurs after
it, capture the shortest text in between; otherwise keep scanning. -/
def findFence (openT closeT : List Char) : List Char → Option (List Char)
  | [] => none
  | c :: cs =>
      if openT.isPrefixOf (c :: cs) then
        match splitAtSub closeT ((c :: cs).drop openT.length) with
        | some (cap, _) => some cap
        | none => findFence openT closeT cs
      else findFence openT closeT cs

/-- Opening token of the ```` ```json ```` fence regex. -/
def jsonOpenTok : List Char := "```json\n".toList

/-- Opening token of the plain ```` ``` ```` fence regex. -/
def plainOpenTok : List Char := "```\n".toList

/-- Closing token of both fence regexes. -/
def fenceCloseTok : List Char := "\n```".toList

/-- Lines 144–148 of `part_002` (identically `part_003`): the string
handed to `JSON.parse` — the ```` ```json ```` fence capture if that
regex matches, else the plain ```` ``` ```` fence capture, else the
whole response text. -/
def extractJsonString (s : String) : String :=
  match findFence jsonOpenTok fenceCloseTok s.toList with
  | some cap => String.mk cap
  | none =>
      match findFence plainOpenTok fenceCloseTok s.toList with
      | some cap => String.mk cap
      | none => s

/-! ### Non-streaming analysis endpoint (`part_002` / `part_003`) -/

/-- The fallback analysis result (lines 153–172 of `part_002`): the
first 500 characters of the response as summary, one fixed placeholder
todo and one fixed placeholder insight. -/
def fallbackBody (fullResponse : String) : JsonVal :=
  .obj [("summary", .str (fullResponse.take 500)),
        ("todos", .arr [.obj [("id", .str "1"),
                              ("text", .str "Review email analysis results"),
                              ("source", .str "Email Agent"),
                              ("priority", .str "medium")]]),
        ("insights", .arr [.obj [("type", .str "info"),
                                 ("title", .str "Analysis Complete"),
                                 ("description", .str "Check the summary above for details")]])]

/-- Lines 141–172 of `part_002`: parse the extracted string; on parse
failure use the fallback.  The parsed value is passed through without
any shape check (the TypeScript annotation is erased at runtime). -/
def analysisResultOf (fullResponse : String) : JsonVal :=
  match jsonParse (extractJsonString fullResponse) with
  | some v => v
  | none => fallbackBody fullResponse

/-- Text accumulation loop of the analysis endpoints (lines 100–134):
`fullResponse` collects the `text_delta` texts. -/
def collectText : List SDKMessage → String → String
  | [], fullResponse => fullResponse
  | m :: rest, fullResponse =>
      match m with
      | .textDelta t => collectText rest (fullResponse ++ t)
      | _ => collectText rest fullResponse

/-- An HTTP response with a JSON body. -/
structure JsonResponse where
  status : Nat
  body : JsonVal

/-- The exact HTTP 500 body of the analysis endpoints (lines 198–206
of `part_002`). -/
def analyzeErrorBody : JsonVal :=
  .obj [("error", .str "Failed to analyze inbox"),
        ("summary", .str ("An error occurred while analyzing your inbox. Please make sure " ++
          "the Gmail MCP server is configured and you have granted permissions.")),
        ("todos", .arr []),
        ("insights", .arr [])]

/-- `POST` of the analysis endpoint (`part_002`, identically
`part_003`): on upstream success, HTTP 200 with the parsed-or-fallback
result; on any exception, HTTP 500 with the fixed error body. -/
def analyzePOST (up : Upstream) : JsonResponse :=
  match up with
  | .ok msgs => ⟨200, analysisResultOf (collectText msgs "")⟩
  | .throws _ => ⟨500, analyzeErrorBody⟩

/-! ### Instrumentation facade (`sentry-utils`, `part_005`) -/

/-- `measureTime` (lines 258–273): call `fn`, record a success or error
timing metric, return the result or rethrow the error.  The outcome is
modelled as `Except`; the second component lists the metric names
recorded. -/
def measureTime {A : Type} (name : String) (fn : Unit → Except String A) :
    Except String A × List String :=
  match fn () with
  | .ok result => (.ok result, ["function." ++ name])
  | .error e => (.error e, ["function." ++ name ++ ".error"])

/-- `startSpan` (lines 241–253): pure delegation to the SDK's
`Sentry.startSpan`, which runs the wrapped operation.  The SDK
function is an external collaborator, passed as a parameter. -/
def startSpan {A : Type}
    (sentryStartSpan : (Unit → Except String A) → Except String A)
    (name : String) (op : String) (operation : Unit → Except String A) :
    Except String A :=
  sentryStartSpan operation

/-! ### Spec-side definitions

These definitions follow the specification's wording (not the source);
they exist to be compared with the source-derived definitions above. -/

/-- Spec side: "message equals the concatenation, in production order,
of the text of all upstream text_delta events". -/
def specMessageText : List SDKMessage → String
  | [] => ""
  | m :: rest =>
      (match m with
        | .textDelta t => t
        | _ => "") ++ specMessageText rest

/-- Spec side: "toolsUsed equals the number of tool_use content blocks
observed across assistant messages". -/
def specToolsUsed : List SDKMessage → Nat
  | [] => 0
  | m :: rest =>
      (match m with
        | .assistantMsg content => (content.filter isToolUse).length
        | _ => 0) + specToolsUsed rest

/-- Look a key up in a JSON object's field list (first occurrence). -/
def jsonLookup : List (String × JsonVal) → String → Option JsonVal
  | [], _ => none
  | (k, v) :: rest, key => if k = key then some v else jsonLookup rest key

/-- Field access on a JSON value. -/
def jsonGet (v : JsonVal) (key : String) : Option JsonVal :=
  match v with
  | .obj fields => jsonLookup fields key
  | _ => none

/-- Spec side: a JSON document "of the shape
`{ summary, todos: Todo[], insights: Insight[] }`" — an object with a
`summary` field and `todos`/`insights` fields holding arrays. -/
def specAnalysisShape (v : JsonVal) : Bool :=
  (jsonGet v "summary").isSome &&
    (match jsonGet v "todos" with
      | some (.arr _) => true
      | _ => false) &&
    (match jsonGet v "insights" with
      | some (.arr _) => true
      | _ => false)

/-- Terminal frames in the sense of the spec: `done` or `error`. -/
def isTerminal : Frame → Bool
  | .done => true
  | .error _ => true
  | _ => false

/-- Result messages of the upstream SDK (terminal upstream events). -/
def isResultMsg : SDKMessage → Bool
  | .resultSuccess => true
  | .resultError => true
  | _ => false

/-! ### Helper lemmas -/

theorem relayLoop_eq (msgs : List SDKMessage) (acc : List Frame) :
    relayLoop msgs acc = acc ++ (msgs.map relayFrames).flatten := by
  induction msgs generalizing acc with
  | nil => simp [relayLoop]
  | cons m rest ih =>
      simp [relayLoop, ih, List.append_assoc]

theorem writeAll_none (fs w : List Frame) :
    writeAll none w fs = (w ++ fs, false) := by
  induction fs generalizing w with
  | nil => simp [writeAll]
  | cons f rest ih =>
      simp [writeAll, enqueueW, ih, List.append_assoc]

theorem chatStream_ok (msgs : List SDKMessage) :
    chatStream (.ok msgs) = (msgs.map relayFrames).flatten ++ [.doneSentinel] := by
  simp [chatStream, chatRun, writeAll_none, relayLoop_eq, closeThrows]

theorem chatStream_throws (pre : List SDKMessage) :
    chatStream (.throws pre) =
      (pre.map relayFrames).flatten ++ [.error "Stream error occurred"] := by
  simp [chatStream, chatRun, writeAll_none, relayLoop_eq, chatCatch, enqueueW,
    closeThrows]

theorem relayFrames_no_sentinel (m : SDKMessage) :
    Frame.doneSentinel ∉ relayFrames m := by
  cases m with
  | assistantMsg content =>
      simp only [relayFrames, List.mem_filterMap]
      rintro ⟨b, _, hb⟩
      cases b <;> simp_all
  | _ => simp [relayFrames]

theorem flatten_no_sentinel (msgs : List SDKMessage) :
    Frame.doneSentinel ∉ (msgs.map relayFrames).flatten := by
  simp only [List.mem_flatten, List.mem_map]
  rintro ⟨l, ⟨m, _, rfl⟩, hmem⟩
  exact relayFrames_no_sentinel m hmem

theorem relayFrames_no_terminal (m : SDKMessage) (h : isResultMsg m = false) :
    (relayFrames m).filter isTerminal = [] := by
  cases m with
  | assistantMsg content =>
      rw [List.filter_eq_nil_iff]
      intro f hf
      rw [relayFrames, List.mem_filterMap] at hf
      obtain ⟨b, _, hb⟩ := hf
      cases b <;> simp_all [isTerminal] <;> subst hb <;> rfl
  | _ => simp_all [relayFrames, isResultMsg, isTerminal]

theorem flatten_no_terminal (msgs : List SDKMessage)
    (h : ∀ m ∈ msgs, isResultMsg m = false) :
    ((msgs.map relayFrames).flatten).filter isTerminal = [] := by
  induction msgs with
  | nil => simp
  | cons m rest ih =>
      simp only [List.map_cons, List.flatten_cons, List.filter_append]
      rw [relayFrames_no_terminal m (h m (by simp)), ih fun x hx => h x (by simp [hx])]
      rfl

theorem lastUserMessage_eq_none (msgs : List MessageInput)
    (h : ∀ m ∈ msgs, isUserMsg m = false) : lastUserMessage msgs = none := by
  rw [lastUserMessage, List.getLast?_eq_none_iff, List.filter_eq_nil_iff]
  simpa using h

theorem lastUserMessage_isSome (msgs : List MessageInput)
    (h : ∃ m ∈ msgs, isUserMsg m = true) : (lastUserMessage msgs).isSome = true := by
  rw [lastUserMessage, List.getLast?_isSome]
  obtain ⟨m, hmem, hm⟩ := h
  intro hnil
  have : m ∈ msgs.filter isUserMsg := List.mem_filter.mpr ⟨hmem, hm⟩
  simp [hnil] at this

/-! ### Claims -/

/-- C1 (amended): for an upstream sequence of non-result events ending
in one success result, the chat relay writes exactly one terminal frame
(`done`), followed by exactly one `[DONE]` sentinel, which is the last
frame; but when an exception is raised while iterating the upstream
sequence, the single terminal `error` frame is the LAST frame written —
the stream is closed without the `[DONE]` sentinel. -/
theorem chat_terminal_frames (pre : List SDKMessage)
    (h : ∀ m ∈ pre, isResultMsg m = false) :
    ((chatStream (.ok (pre ++ [.resultSuccess]))).filter isTerminal = [.done] ∧
      (chatStream (.ok (pre ++ [.resultSuccess]))).getLast? = some .doneSentinel ∧
      (chatStream (.ok (pre ++ [.resultSuccess]))).count .doneSentinel = 1) ∧
    ((chatStream (.throws pre)).filter isTerminal = [.error "Stream error occurred"] ∧
      Frame.doneSentinel ∉ chatStream (.throws pre) ∧
      (chatStream (.throws pre)).getLast? = some (.error "Stream error occurred")) := by
  have hflat := flatten_no_terminal pre h
  have hsent := flatten_no_sentinel pre
  refine ⟨⟨?_, ?_, ?_⟩, ?_, ?_, ?_⟩
  · rw [chatStream_ok, List.map_append, List.flatten_append]
    simp [List.filter_append, hflat, relayFrames, isTerminal]
  · rw [chatStream_ok]
    exact List.getLast?_concat _
  · rw [chatStream_ok, List.count_append]
    have h0 : ((pre ++ [SDKMessage.resultSuccess]).map relayFrames).flatten.count
        Frame.doneSentinel = 0 := by
      rw [List.count_eq_zero]
      exact flatten_no_sentinel _
    rw [h0]
    rfl
  · rw [chatStream_throws, List.filter_append]
    simp [hflat, isTerminal]
  · rw [chatStream_throws]
    simp only [List.mem_append, List.mem_singleton]
    rintro (hmem | hmem)
    · exact hsent hmem
    · exact Frame.noConfusion hmem
  · rw [chatStream_throws]
    exact List.getLast?_concat _

/-- C1 witness: the theorem applied to the single-delta upstream. -/
theorem chat_terminal_frames_witness :
    (∀ m ∈ [SDKMessage.textDelta "hi"], isResultMsg m = false) ∧
      (chatStream (.ok ([SDKMessage.textDelta "hi"] ++ [.resultSuccess]))).getLast? =
        some Frame.doneSentinel :=
  ⟨by decide, ((chat_terminal_frames [SDKMessage.textDelta "hi"] (by decide)).1).2.1⟩

/-- C1 counterexample: when the upstream raises after yielding one text
delta, the chat relay writes the error frame but NOT a following
`[DONE]` sentinel — the error frame is the last frame of the stream,
contradicting the claim that the terminal frame is followed by the
`[DONE]` sentinel in both cases. -/
theorem chat_error_frame_no_sentinel :
    chatStream (.throws [.textDelta "hi"]) =
      [.textDelta "hi", .error "Stream error occurred"] ∧
    Frame.doneSentinel ∉ chatStream (.throws [.textDelta "hi"]) := by
  constructor
  · rfl
  · decide

/-- C2 (amended): the chat endpoint rejects with HTTP 400 — before any
upstream call — exactly when the messages contain NO turn with role
`user`; a messages array whose final element has role `assistant` is
accepted (one upstream call, HTTP 200 stream) whenever any earlier
turn is a user turn. -/
theorem chat_user_turn_validation (msgs : List MessageInput) (up : Upstream) :
    ((∀ m ∈ msgs, isUserMsg m = false) →
      chatPOST (.messages msgs) up = ⟨.badRequest "No user message found", 0⟩) ∧
    ((∃ m ∈ msgs, isUserMsg m = true) →
      (chatPOST (.messages msgs) up).upstreamCalls = 1 ∧
        statusOf (chatPOST (.messages msgs) up).response = 200) := by
  constructor
  · intro h
    rw [chatPOST, lastUserMessage_eq_none msgs h]
  · intro h
    have hsome := lastUserMessage_isSome msgs h
    rw [chatPOST]
    obtain ⟨m, hm⟩ := Option.isSome_iff_exists.mp hsome
    rw [hm]
    exact ⟨rfl, rfl⟩

/-- C2 witness: the theorem applied to a single user turn. -/
theorem chat_user_turn_validation_witness :
    (chatPOST (.messages [⟨Role.user, "hello"⟩]) (.ok [])).upstreamCalls = 1 ∧
      statusOf (chatPOST (.messages [⟨Role.user, "hello"⟩]) (.ok [])).response = 200 :=
  (chat_user_turn_validation [⟨Role.user, "hello"⟩] (.ok [])).2
    ⟨⟨Role.user, "hello"⟩, by decide, by decide⟩

/-- C2 counterexample: a messages array whose final element has role
`assistant` (with an earlier user turn) is NOT rejected — the endpoint
opens an upstream call and streams (HTTP 200), contradicting the claim
that such a request fails with a Validation error before any upstream
call. -/
theorem chat_trailing_assistant_accepted :
    (chatPOST (.messages [⟨Role.user, "hi"⟩, ⟨Role.assistant, "yo"⟩])
        (.ok [])).upstreamCalls = 1 ∧
      statusOf (chatPOST (.messages [⟨Role.user, "hi"⟩, ⟨Role.assistant, "yo"⟩])
        (.ok [])).response = 200 := by
  decide

/-- C3: a missing or non-array `messages` field, or messages without
any `user` turn, are rejected with HTTP 400, a body of the shape
`{error: string}` (the `badRequest` constructor carries exactly that
string), and zero upstream agent calls; likewise for the email-agent
and Gong chat endpoints. -/
theorem chat_reject_without_upstream (msgs : List MessageInput) (up : Upstream)
    (ts : String) (fetched : Option GongCallsResponse)
    (h : ∀ m ∈ msgs, isUserMsg m = false) :
    chatPOST .noArray up = ⟨.badRequest "Messages array is required", 0⟩ ∧
    chatPOST (.messages msgs) up = ⟨.badRequest "No user message found", 0⟩ ∧
    statusOf (chatPOST .noArray up).response = 400 ∧
    statusOf (chatPOST (.messages msgs) up).response = 400 ∧
    (chatPOST .noArray up).upstreamCalls = 0 ∧
    (chatPOST (.messages msgs) up).upstreamCalls = 0 ∧
    emailChatPOST .noArray up ts = .badRequest "Messages array is required" ∧
    emailChatPOST (.messages msgs) up ts = .badRequest "No user message found" ∧
    gongPOST .noArray fetched = .badRequest "Messages array is required" ∧
    gongPOST (.messages msgs) fetched = .badRequest "No user message found" := by
  have hnone := lastUserMessage_eq_none msgs h
  refine ⟨rfl, ?_, rfl, ?_, rfl, ?_, rfl, ?_, rfl, ?_⟩ <;>
    simp [chatPOST, emailChatPOST, gongPOST, hnone, statusOf]

/-- C3 witness: the theorem applied to a request whose only turn is an
assistant turn. -/
theorem chat_reject_without_upstream_witness :
    chatPOST (.messages [⟨Role.assistant, "x"⟩]) (.ok []) =
      ⟨.badRequest "No user message found", 0⟩ :=
  (chat_reject_without_upstream [⟨Role.assistant, "x"⟩] (.ok []) "T" none
    (by decide)).2.1

/-- C4: the chat relay preserves upstream event order with no
reordering or batching: the relay loop is a homomorphism for
concatenation of upstream sequences, the full stream is the
order-preserving concatenation of each event's own frames, and the
spec's scripted sequence `[tool_start "a", text_delta "x",
tool_start "b", text_delta "y"]` is relayed in exactly that order,
each event as its own SSE frame. -/
theorem chat_relay_order_fidelity (u1 u2 msgs : List SDKMessage) :
    relayLoop (u1 ++ u2) [] = relayLoop u1 [] ++ relayLoop u2 [] ∧
    chatStream (.ok msgs) = (msgs.map relayFrames).flatten ++ [.doneSentinel] ∧
    chatStream (.ok [.assistantMsg [.toolUse "a"], .textDelta "x",
        .assistantMsg [.toolUse "b"], .textDelta "y"]) =
      [.toolStart "a", .textDelta "x", .toolStart "b", .textDelta "y",
        .doneSentinel] := by
  refine ⟨?_, chatStream_ok msgs, by decide⟩
  simp [relayLoop_eq, List.map_append, List.flatten_append]

theorem splitAtSub_eq (pat : List Char) :
    ∀ (cs : List Char) {pre post : List Char},
      splitAtSub pat cs = some (pre, post) → cs = pre ++ pat ++ post := by
  intro cs
  induction cs with
  | nil =>
      intro pre post h
      rw [splitAtSub] at h
      split at h
      · next hpat =>
          cases h
          simp [hpat]
      · cases h
  | cons a cs ih =>
      intro pre post h
      rw [splitAtSub] at h
      by_cases hpre : pat.isPrefixOf (a :: cs)
      · rw [if_pos hpre] at h
        cases h
        obtain ⟨t, ht⟩ := List.isPrefixOf_iff_prefix.mp hpre
        rw [← ht, List.drop_left, List.nil_append]
      · rw [if_neg hpre] at h
        cases hrec : splitAtSub pat cs with
        | none => rw [hrec] at h; cases h
        | some pr =>
            rw [hrec] at h
            cases h
            have := ih hrec
            simp [this]

theorem findFence_sound (openT closeT : List Char) :
    ∀ (cs cap : List Char), findFence openT closeT cs = some cap →
      ∃ pre suf, cs = pre ++ openT ++ cap ++ closeT ++ suf := by
  intro cs
  induction cs with
  | nil =>
      intro cap h
      rw [findFence] at h
      cases h
  | cons a cs ih =>
      intro cap h
      rw [findFence] at h
      by_cases hpre : openT.isPrefixOf (a :: cs)
      · rw [if_pos hpre] at h
        cases hsp : splitAtSub closeT ((a :: cs).drop openT.length) with
        | none =>
            rw [hsp] at h
            obtain ⟨pre, suf, heq⟩ := ih _ h
            exact ⟨a :: pre, suf, by simp [heq]⟩
        | some pr =>
            obtain ⟨cap2, post⟩ := pr
            rw [hsp] at h
            cases h
            obtain ⟨t, ht⟩ := List.isPrefixOf_iff_prefix.mp hpre
            have hdrop : (a :: cs).drop openT.length = t := by
              rw [← ht, List.drop_left]
            rw [hdrop] at hsp
            have hteq := splitAtSub_eq closeT t hsp
            refine ⟨[], post, ?_⟩
            rw [← ht, hteq]
            simp
      · rw [if_neg hpre] at h
        obtain ⟨pre, suf, heq⟩ := ih _ h
        exact ⟨a :: pre, suf, by simp [heq]⟩

/-- C5 (amended): on upstream failure the analysis endpoint returns
exactly the fixed error body — with `error`, `summary`, and `todos`
and `insights` both the empty array — with HTTP 500; on success it
returns HTTP 200 whose body is the parsed JSON document, which is
guaranteed to have the shape `{summary, todos, insights}` whenever the
fallback path is taken (the parsed value itself is passed through with
no shape check). -/
theorem analyze_response_contract (pre msgs : List SDKMessage) (s : String)
    (hfail : jsonParse (extractJsonString s) = none) :
    analyzePOST (.throws pre) = ⟨500, analyzeErrorBody⟩ ∧
    jsonGet analyzeErrorBody "error" = some (.str "Failed to analyze inbox") ∧
    jsonGet analyzeErrorBody "todos" = some (.arr []) ∧
    jsonGet analyzeErrorBody "insights" = some (.arr []) ∧
    (analyzePOST (.ok msgs)).status = 200 ∧
    analysisResultOf s = fallbackBody s ∧
    specAnalysisShape (fallbackBody s) = true := by
  refine ⟨rfl, rfl, rfl, rfl, rfl, ?_, rfl⟩
  rw [analysisResultOf, hfail]

/-- C5 witness: the theorem applied to the unparseable response `bad`. -/
theorem analyze_response_contract_witness :
    jsonParse (extractJsonString "bad") = none ∧
      analysisResultOf "bad" = fallbackBody "bad" :=
  ⟨rfl, (analyze_response_contract [] [] "bad" rfl).2.2.2.2.2.1⟩

/-- C5 counterexample: an upstream free-text response `{}` parses as
JSON, so the endpoint returns it unchanged with HTTP 200 — an empty
object that does NOT have the claimed shape
`{summary, todos: Todo[], insights: Insight[]}`. -/
theorem analyze_shape_counterexample :
    analyzePOST (.ok [.textDelta "\x7b\x7d"]) = ⟨200, .obj []⟩ ∧
      specAnalysisShape (JsonVal.obj []) = false :=
  ⟨rfl, rfl⟩

/-- C6 (amended): JSON extraction picks exactly one candidate string —
the ```` ```json ```` fenced block's capture if that regex matches
(soundness: the capture really is fenced in the text), else the plain
```` ``` ```` fenced block's capture, else the whole text — and makes
a single parse attempt on it; if THAT string fails to parse (even when
another candidate would parse) the endpoint returns HTTP 200 with the
fallback result: the first 500 characters of the upstream text as
summary, one fixed placeholder todo and one fixed placeholder
insight. -/
theorem analyze_extraction_order (s : String) (msgs : List SDKMessage)
    (c : List Char) :
    (findFence jsonOpenTok fenceCloseTok s.toList = some c →
      extractJsonString s = String.mk c ∧
      ∃ pre suf, s.toList = pre ++ jsonOpenTok ++ c ++ fenceCloseTok ++ suf) ∧
    (findFence jsonOpenTok fenceCloseTok s.toList = none →
      findFence plainOpenTok fenceCloseTok s.toList = some c →
      extractJsonString s = String.mk c ∧
      ∃ pre suf, s.toList = pre ++ plainOpenTok ++ c ++ fenceCloseTok ++ suf) ∧
    (findFence jsonOpenTok fenceCloseTok s.toList = none →
      findFence plainOpenTok fenceCloseTok s.toList = none →
      extractJsonString s = s) ∧
    (jsonParse (extractJsonString s) = none →
      analysisResultOf s = fallbackBody s) ∧
    analyzePOST (.ok msgs) = ⟨200, analysisResultOf (collectText msgs "")⟩ := by
  refine ⟨?_, ?_, ?_, ?_, rfl⟩
  · intro h
    refine ⟨?_, findFence_sound _ _ _ _ h⟩
    rw [extractJsonString, h]
  · intro h1 h2
    refine ⟨?_, findFence_sound _ _ _ _ h2⟩
    rw [extractJsonString, h1, h2]
  · intro h1 h2
    rw [extractJsonString, h1, h2]
  · intro h
    rw [analysisResultOf, h]

/-- C6 witness: the theorem applied to a response with one valid
```` ```json ```` fence. -/
theorem analyze_extraction_order_witness :
    extractJsonString "pre ```json\nnot json\n``` post" =
        String.mk ("not json".toList) ∧
      ∃ pre suf, ("pre ```json\nnot json\n``` post").toList =
        pre ++ jsonOpenTok ++ ("not json".toList) ++ fenceCloseTok ++ suf :=
  (analyze_extraction_order "pre ```json\nnot json\n``` post" []
    ("not json".toList)).1 rfl

/-- C6 counterexample: for the response whose ```` ```json ```` fence
holds unparseable text while its plain ```` ``` ```` fence capture is
`{}` — which does parse as JSON — the endpoint still returns the
fallback: only the first extracted candidate is ever parsed, so "none
of these parses" is not what triggers the fallback. -/
theorem analyze_single_parse_counterexample :
    findFence plainOpenTok fenceCloseTok
        ("```json\nbad\n```\n\x7b\x7d\n```").toList = some ("\x7b\x7d".toList) ∧
    jsonParse "\x7b\x7d" = some (.obj []) ∧
    extractJsonString "```json\nbad\n```\n\x7b\x7d\n```" = "bad" ∧
    jsonParse "bad" = none ∧
    analyzePOST (.ok [.textDelta "```json\nbad\n```\n\x7b\x7d\n```"]) =
      ⟨200, fallbackBody "```json\nbad\n```\n\x7b\x7d\n```"⟩ :=
  ⟨rfl, rfl, rfl, rfl, rfl⟩

/-- C7: on a client disconnect (channel capacity 0) neither streaming
relay endpoint swallows the resulting exceptions inside its stream
start handler, violating the claim: the chat route's catch block
enqueues its error frame unguarded (route.ts line 186), so that
write's exception escapes; the Gong route guards only the enqueue —
its unguarded `controller.close()` at line 1128 then throws on the
already-canceled stream and escapes.  Absent a disconnect (capacity
`none`) neither handler raises. -/
theorem chat_catch_write_escapes :
    (chatRun (some 0) (.ok [.textDelta "hi"])).2 = true ∧
    (gongRun (some 0) none "hi").2 = true ∧
    (∀ up, (chatRun none up).2 = false) ∧
    (∀ fetched userMsg, (gongRun none fetched userMsg).2 = false) := by
  refine ⟨by decide, by decide, ?_, ?_⟩
  · intro up
    cases up with
    | ok msgs => simp [chatRun, writeAll_none, closeThrows]
    | throws pre => simp [chatRun, writeAll_none, chatCatch, enqueueW, closeThrows]
  · intro fetched userMsg
    simp [gongRun, writeAll_none, closeThrows]

/-- C8: the instrumentation facade is outcome-transparent —
`measureTime` returns exactly `fn`'s value on success and rethrows
exactly `fn`'s exception on failure, and `startSpan` delegates to the
SDK's span wrapper, which (per the SDK's contract, taken as a
hypothesis on the external collaborator) runs the operation and
returns its outcome unchanged. -/
theorem facade_outcome_transparent {A : Type} (name opName : String)
    (fn : Unit → Except String A)
    (sentrySS : (Unit → Except String A) → Except String A)
    (hSDK : ∀ f, sentrySS f = f ()) :
    (measureTime name fn).1 = fn () ∧
    startSpan sentrySS name opName fn = fn () := by
  constructor
  · rw [measureTime]
    cases fn () <;> rfl
  · rw [startSpan, hSDK]

/-- C8 witness: the theorem applied to a concrete operation and the
contract-satisfying SDK stub. -/
theorem facade_outcome_transparent_witness :
    (measureTime "t" (fun _ => Except.ok (3 : Nat))).1 = Except.ok 3 ∧
      startSpan (fun f => f ()) "t" "function" (fun _ => Except.ok (3 : Nat)) =
        Except.ok 3 :=
  facade_outcome_transparent "t" "function" (fun _ => Except.ok 3)
    (fun f => f ()) (fun _ => rfl)

theorem emailLoop_eq (ms : List SDKMessage) (full : String) (tools : Nat) :
    emailLoop ms full tools = (full ++ specMessageText ms, tools + specToolsUsed ms) := by
  induction ms generalizing full tools with
  | nil => simp [emailLoop, specMessageText, specToolsUsed]
  | cons m rest ih =>
      cases m <;>
        simp [emailLoop, specMessageText, specToolsUsed, ih, String.append_assoc,
          Nat.add_assoc]

/-- C9: for every upstream event sequence consumed by the email-agent
chat endpoint (on a valid request), the HTTP 200 body's `message` is
the concatenation, in production order, of all `text_delta` texts, its
`toolsUsed` is the number of `tool_use` blocks across assistant
messages, and `timestamp` is the request's timestamp. -/
theorem email_chat_response_content (msgs : List MessageInput)
    (ms : List SDKMessage) (ts : String)
    (h : ∃ m ∈ msgs, isUserMsg m = true) :
    emailChatPOST (.messages msgs) (.ok ms) ts =
      .ok ⟨specMessageText ms, specToolsUsed ms, ts⟩ := by
  obtain ⟨mu, hmu⟩ := Option.isSome_iff_exists.mp (lastUserMessage_isSome msgs h)
  rw [emailChatPOST, hmu]
  simp [emailLoop_eq]

/-- C9 witness: the theorem applied to a concrete upstream sequence
with two deltas and one tool use. -/
theorem email_chat_response_content_witness :
    emailChatPOST (.messages [⟨Role.user, "hello"⟩])
        (.ok [.textDelta "hi ", .assistantMsg [.toolUse "Bash", .otherBlock],
          .textDelta "there"]) "T" =
      .ok ⟨"hi there", 1, "T"⟩ :=
  email_chat_response_content [⟨Role.user, "hello"⟩]
    [.textDelta "hi ", .assistantMsg [.toolUse "Bash", .otherBlock],
      .textDelta "there"] "T" ⟨⟨Role.user, "hello"⟩, by decide, by decide⟩

/-- C10: for every valid request to the Gong streaming endpoint,
whatever the outcome of the Gong API fetch (`fetched = none` models a
failed or non-OK fetch), the stream is exactly one `text_delta` frame,
then one `done` frame, then the `[DONE]` sentinel — and no `error`
frame ever occurs in it. -/
theorem gong_stream_fixed_shape (msgs : List MessageInput)
    (fetched : Option GongCallsResponse) (lastU : MessageInput)
    (h : lastUserMessage msgs = some lastU) :
    gongPOST (.messages msgs) fetched =
      .streamResponse [.textDelta (gongContent fetched lastU.content), .done,
        .doneSentinel] ∧
    (∀ emsg, Frame.error emsg ∉
      [Frame.textDelta (gongContent fetched lastU.content), Frame.done,
        Frame.doneSentinel]) := by
  constructor
  · rw [gongPOST, h]
    simp [gongRun, writeAll_none, closeThrows]
  · intro emsg
    simp

/-- C10 witness: the theorem applied to a valid request with a failed
Gong fetch. -/
theorem gong_stream_fixed_shape_witness :
    gongPOST (.messages [⟨Role.user, "hi"⟩]) none =
      .streamResponse [.textDelta (gongContent none "hi"), .done, .doneSentinel] :=
  (gong_stream_fixed_shape [⟨Role.user, "hi"⟩] none ⟨Role.user, "hi"⟩
    (by decide)).1

end SentryOS
